import Mathlib

/-!
Verification of the trip-analytics aggregation core of the `trucklagbe`
repository against its design specification.

The repository contains two parallel implementations of the per-driver
analytics computation:

* `TripAnalyticsService` (Prisma / `trip-analytics.service.ts`):
  `getDriverAnalyticsUnoptimized` (one raw four-table JOIN aggregate plus a
  50-row detail query) and `getDriverAnalytics` (cache-aside wrapper around a
  driver lookup, a three-table stats aggregate and the same 50-row detail
  query).  Both recompute `average_rating` from the fetched trip details
  (ratings > 0 only) and round it with `Number(x.toFixed(2))`.

* `DatabaseService` (mysql2 / `database.service.ts`):
  `getDriverAnalyticsUnoptimized` (one JOIN with `JSON_ARRAYAGG` trip details
  and the data store's `AVG(r.rating_value)`) and
  `getDriverAnalyticsOptimized` (fan-out: driver, trips, payments-by-trip-ids,
  ratings-by-trip-ids, merged in application memory).

The embedding models SQL rows and JavaScript numbers as exact rationals
(the spec mandates decimal arithmetic for money; rating values are
`DECIMAL(3,2)`), dates as integers, and the relational tables as lists.
LEFT JOIN is modelled with full multiplicity (a trip row is repeated for
every matching payment/rating row); the schema's one-payment/one-rating-per-
trip shape is an explicit well-formedness hypothesis, not baked into the
join.
-/

/-- A row of the `drivers` table. -/
structure Driver where
  id : Int
  driver_name : String
  phone_number : String
  onboarding_date : Int
  deriving DecidableEq, Repr

/-- A row of the `trips` table. -/
structure Trip where
  id : Int
  driver_id : Int
  start_location : String
  end_location : String
  trip_date : Int
  deriving DecidableEq, Repr

/-- A row of the `payments` table (`amount DECIMAL(10,2)`). -/
structure Payment where
  id : Int
  trip_id : Int
  amount : ℚ
  deriving DecidableEq, Repr

/-- A row of the `ratings` table (`rating_value DECIMAL(3,2)`). -/
structure Rating where
  id : Int
  trip_id : Int
  rating_value : ℚ
  comment : String
  deriving DecidableEq, Repr

/-- The read-only persistent store: the four relations. -/
structure Store where
  drivers : List Driver
  trips : List Trip
  payments : List Payment
  ratings : List Rating
  deriving DecidableEq, Repr

/-- A trip detail entry of the analytics result (`TripDetail` in
`database.service.ts` and `TripDetailDto` in the Prisma service). -/
structure TripDetail where
  trip_id : Int
  start_location : String
  end_location : String
  trip_date : Int
  amount : ℚ
  rating_value : ℚ
  comment : String
  deriving DecidableEq, Repr

/-- A trip entry as produced by `JSON_ARRAYAGG(JSON_OBJECT(...))` in the
mysql2 single-query path.  The trip columns come straight from the joined
`trips` row and are `null` when the LEFT JOIN produced no trip, while the
payment/rating columns are wrapped in `COALESCE`, hence never null. -/
structure TripDetailJson where
  trip_id : Option Int
  start_location : Option String
  end_location : Option String
  trip_date : Option Int
  amount : ℚ
  rating_value : ℚ
  comment : String
  deriving DecidableEq, Repr

/-- The analytics result (`DriverAnalytics` / `DriverAnalyticsDto`),
parameterized by the shape of the trip-detail entries. -/
structure DriverAnalytics (τ : Type) where
  driver_id : Int
  driver_name : String
  phone_number : String
  onboarding_date : Int
  total_trips : Nat
  total_earnings : ℚ
  average_rating : ℚ
  trips : List τ
  deriving DecidableEq, Repr

/-- Failure kinds of the aggregation (§7 of the spec).  `storeError` covers
data-store failures such as Prisma rejecting a non-integer id for an `Int`
column. -/
inductive AggError where
  | notFound
  | invalidArgument
  | storeError
  deriving DecidableEq, Repr

instance {ε α : Type _} [DecidableEq ε] [DecidableEq α] : DecidableEq (Except ε α) := fun x y =>
  match x, y with
  | .error a, .error b =>
    if h : a = b then isTrue (by rw [h]) else isFalse (fun hh => h (Except.error.inj hh))
  | .error _, .ok _ => isFalse (fun hh => Except.noConfusion hh)
  | .ok _, .error _ => isFalse (fun hh => Except.noConfusion hh)
  | .ok a, .ok b =>
    if h : a = b then isTrue (by rw [h]) else isFalse (fun hh => h (Except.ok.inj hh))

/-! ### Primitive store lookups -/

/-- The query `SELECT * FROM drivers WHERE id = ?` / `prisma.driver.findUnique`. -/
def findDriver (s : Store) (driverId : Int) : Option Driver :=
  s.drivers.find? (fun d => d.id == driverId)

/-- The filter `WHERE driver_id = ?` over `trips` (store order, no limit). -/
def tripsOf (s : Store) (driverId : Int) : List Trip :=
  s.trips.filter (fun t => t.driver_id == driverId)

/-- The payment attached to a trip by Prisma's to-one `payment` relation. -/
def paymentFor (s : Store) (tripId : Int) : Option Payment :=
  s.payments.find? (fun p => p.trip_id == tripId)

/-- The rating attached to a trip by Prisma's to-one `rating` relation. -/
def ratingFor (s : Store) (tripId : Int) : Option Rating :=
  s.ratings.find? (fun r => r.trip_id == tripId)

/-! ### SQL LEFT JOIN semantics -/

/-- One row of `trips LEFT JOIN payments LEFT JOIN ratings` (the `trip`
column is also optional so that the row of a tripless driver in the
four-table join can be represented). -/
structure JoinRow where
  trip : Option Trip
  payment : Option Payment
  rating : Option Rating
  deriving DecidableEq, Repr

/-- The payment factors of a LEFT JOIN on one trip row: every matching
payment row, or a single `NULL` when none matches. -/
def paymentMatches (s : Store) (tripId : Int) : List (Option Payment) :=
  let l := (s.payments.filter (fun p => p.trip_id == tripId)).map some
  if l.isEmpty then [none] else l

/-- The rating factors of a LEFT JOIN on one trip row: every matching rating
row, or a single `NULL` when none matches. -/
def ratingMatches (s : Store) (tripId : Int) : List (Option Rating) :=
  let l := (s.ratings.filter (fun r => r.trip_id == tripId)).map some
  if l.isEmpty then [none] else l

/-- Rows of `trips t LEFT JOIN payments p ON t.id = p.trip_id
LEFT JOIN ratings r ON t.id = r.trip_id WHERE t.driver_id = ?`
(the stats query of the optimized Prisma path). -/
def tripJoinRows (s : Store) (driverId : Int) : List JoinRow :=
  (tripsOf s driverId).flatMap (fun t =>
    (paymentMatches s t.id).flatMap (fun p =>
      (ratingMatches s t.id).map (fun r => ⟨some t, p, r⟩)))

/-- Rows of `drivers d LEFT JOIN trips t ... WHERE d.id = ?` for a driver
that exists: a driver without trips still yields one row, with all trip,
payment and rating columns `NULL`. -/
def driverJoinRows (s : Store) (driverId : Int) : List JoinRow :=
  if (tripsOf s driverId).isEmpty then [⟨none, none, none⟩]
  else tripJoinRows s driverId

/-! ### Kernel-computable rational arithmetic

The Batteries `Rat.add`/`Rat.mul`/`Rat.inv` are `@[irreducible]`, so closed
facts about concrete stores could not be checked by `decide` through them.
The model therefore uses the following `mkRat`-based operations, which the
bridging theorems `qadd_eq`, `qsum_eq`, `qdivNat_eq`, `qmulInt_eq` and
`round2_eq` identify with the standard `ℚ` operations. -/

/-- Computable addition on `ℚ` (equal to `+` by `qadd_eq`). -/
def qadd (a b : ℚ) : ℚ :=
  mkRat (a.num * (b.den : Int) + b.num * (a.den : Int)) (a.den * b.den)

/-- Computable sum of a list of rationals (equal to `List.sum` by
`qsum_eq`). -/
def qsum : List ℚ → ℚ
  | [] => 0
  | a :: l => qadd a (qsum l)

/-- Computable division of a rational by a natural number (equal to `· / ·`
by `qdivNat_eq`). -/
def qdivNat (a : ℚ) (n : Nat) : ℚ :=
  mkRat a.num (a.den * n)

/-- Computable multiplication of a rational by an integer (equal to `· * ·`
by `qmulInt_eq`). -/
def qmulInt (a : ℚ) (n : Int) : ℚ :=
  mkRat (a.num * n) a.den

/-- Aggregate `COUNT(t.id)`: counts rows whose trip column is non-null. -/
def sqlCountTrips (rows : List JoinRow) : Nat :=
  rows.countP (fun r => r.trip.isSome)

/-- Aggregate `COALESCE(SUM(p.amount), 0)`: sum over rows whose payment is non-null. -/
def sqlSumAmount (rows : List JoinRow) : ℚ :=
  qsum ((rows.filterMap JoinRow.payment).map Payment.amount)

/-- Aggregate `COALESCE(AVG(r.rating_value), 0)`: mean over rows whose rating is
non-null, `0` when there is none. -/
def sqlAvgRating (rows : List JoinRow) : ℚ :=
  let vs := (rows.filterMap JoinRow.rating).map Rating.rating_value
  if vs.isEmpty then 0 else qdivNat (qsum vs) vs.length

/-! ### Shared result-shaping helpers (JavaScript side) -/

/-- Model of `Number(x.toFixed(2))` for the non-negative averages produced here:
round to 2 decimal places, ties away from zero. -/
def round2 (q : ℚ) : ℚ :=
  mkRat (Rat.floor (qadd (qmulInt q 100) (mkRat 1 2))) 100

/-- Whether a rational is expressible with two decimal digits. -/
def hasTwoDecimals (q : ℚ) : Bool :=
  (qmulInt q 100).den == 1

/-- Insert a trip into a list already sorted by descending `trip_date`. -/
def insertByDateDesc (t : Trip) : List Trip → List Trip
  | [] => [t]
  | u :: us =>
    if u.trip_date ≤ t.trip_date then t :: u :: us else u :: insertByDateDesc t us

/-- Model of `orderBy: ... trip_date desc` (stable). -/
def sortByDateDesc : List Trip → List Trip
  | [] => []
  | t :: ts => insertByDateDesc t (sortByDateDesc ts)

namespace TripAnalyticsService

/-- One entry of the mapped `tripDetails` array: the Prisma to-one
`payment`/`rating` relations with `?.field || default` coalescing. -/
def tripDetail (s : Store) (t : Trip) : TripDetail :=
  { trip_id := t.id
    start_location := t.start_location
    end_location := t.end_location
    trip_date := t.trip_date
    amount := ((paymentFor s t.id).map Payment.amount).getD 0
    rating_value := ((ratingFor s t.id).map Rating.rating_value).getD 0
    comment := ((ratingFor s t.id).map Rating.comment).getD "" }

/-- The detail query: `prisma.trip.findMany` for the driver, ordered by
`trip_date` descending, `take: 50`. -/
def recentTrips (s : Store) (driverId : Int) : List Trip :=
  (sortByDateDesc (tripsOf s driverId)).take 50

/-- The fetched trip details of both Prisma paths. -/
def tripDetails (s : Store) (driverId : Int) : List TripDetail :=
  (recentTrips s driverId).map (tripDetail s)

/-- The `calculatedAverageRating` step: mean over the fetched details with
`rating_value > 0`, `0` when there is none. -/
def calcAverageRating (details : List TripDetail) : ℚ :=
  let validRatings := details.filter (fun d => decide (0 < d.rating_value))
  if validRatings.isEmpty then 0
  else qdivNat (qsum (validRatings.map TripDetail.rating_value)) validRatings.length

/-- Model of `TripAnalyticsService.getDriverAnalyticsUnoptimized`: the raw four-table
JOIN aggregate (driver missing ⇒ zero result rows ⇒ "not found"), a second
50-row detail query, and the recomputed, rounded average.  The aggregate's
`AVG(r.rating_value)` is computed by the query but discarded in favour of
`calculatedAverageRating`. -/
def getDriverAnalyticsUnoptimized (s : Store) (driverId : Int) :
    Except AggError (DriverAnalytics TripDetail) :=
  match findDriver s driverId with
  | none => .error .notFound
  | some d =>
    let rows := driverJoinRows s driverId
    let details := tripDetails s driverId
    .ok
      { driver_id := d.id
        driver_name := d.driver_name
        phone_number := d.phone_number
        onboarding_date := d.onboarding_date
        total_trips := sqlCountTrips rows
        total_earnings := sqlSumAmount rows
        average_rating := round2 (calcAverageRating details)
        trips := details }

/-- The cache-miss computation of `TripAnalyticsService.getDriverAnalytics`:
driver primary-key lookup, three-table stats aggregate, 50-row detail
query, recomputed rounded average.  The stats query's conditional
`AVG(CASE WHEN r.rating_value > 0 ...)` is likewise discarded. -/
def computeDriverAnalytics (s : Store) (driverId : Int) :
    Except AggError (DriverAnalytics TripDetail) :=
  match findDriver s driverId with
  | none => .error .notFound
  | some d =>
    let rows := tripJoinRows s driverId
    let details := tripDetails s driverId
    .ok
      { driver_id := d.id
        driver_name := d.driver_name
        phone_number := d.phone_number
        onboarding_date := d.onboarding_date
        total_trips := sqlCountTrips rows
        total_earnings := sqlSumAmount rows
        average_rating := round2 (calcAverageRating details)
        trips := details }

end TripAnalyticsService

/-! ### Cache overlay (`redis.service.ts`) -/

/-- The cache keyed by driver id (`driver:${driverId}`).  Values round-trip
through JSON unchanged in this model: every field is plain data. -/
abbrev Cache := List (Int × DriverAnalytics TripDetail)

/-- Model of `RedisService.get`: on a read error the catch block returns `null`,
which the caller treats as a miss. -/
def redisGet (c : Cache) (getFails : Bool) (driverId : Int) :
    Option (DriverAnalytics TripDetail) :=
  if getFails then none else (c.find? (fun kv => kv.1 == driverId)).map Prod.snd

/-- Model of `RedisService.set`: `setex` overwrites the key; on a write error the
catch block swallows the failure and the cache is unchanged. -/
def redisSet (c : Cache) (setFails : Bool) (driverId : Int)
    (a : DriverAnalytics TripDetail) : Cache :=
  if setFails then c else (driverId, a) :: c

namespace TripAnalyticsService

/-- Model of `TripAnalyticsService.getDriverAnalytics`: cache-aside around
`computeDriverAnalytics`, returning the result together with the cache
state after the call. -/
def getDriverAnalytics (s : Store) (c : Cache) (getFails setFails : Bool)
    (driverId : Int) :
    Except AggError (DriverAnalytics TripDetail × Cache) :=
  match redisGet c getFails driverId with
  | some cached => .ok (cached, c)
  | none =>
    match computeDriverAnalytics s driverId with
    | .error e => .error e
    | .ok a => .ok (a, redisSet c setFails driverId a)

end TripAnalyticsService

namespace DatabaseService

/-- One element of the `JSON_ARRAYAGG(JSON_OBJECT(...))` array: trip
columns straight from the join row, payment/rating columns through
`COALESCE`. -/
def jsonAggEntry (row : JoinRow) : TripDetailJson :=
  { trip_id := row.trip.map Trip.id
    start_location := row.trip.map Trip.start_location
    end_location := row.trip.map Trip.end_location
    trip_date := row.trip.map Trip.trip_date
    amount := (row.payment.map Payment.amount).getD 0
    rating_value := (row.rating.map Rating.rating_value).getD 0
    comment := (row.rating.map Rating.comment).getD "" }

/-- Model of `DatabaseService.getDriverAnalyticsUnoptimized`: the single four-table
JOIN with `COUNT`, `COALESCE(SUM(p.amount), 0)`,
`COALESCE(AVG(r.rating_value), 0)` and `JSON_ARRAYAGG` trip details,
grouped by driver; zero result rows ⇒ "Driver not found". -/
def getDriverAnalyticsUnoptimized (s : Store) (driverId : Int) :
    Except AggError (DriverAnalytics TripDetailJson) :=
  match findDriver s driverId with
  | none => .error .notFound
  | some d =>
    let rows := driverJoinRows s driverId
    .ok
      { driver_id := d.id
        driver_name := d.driver_name
        phone_number := d.phone_number
        onboarding_date := d.onboarding_date
        total_trips := sqlCountTrips rows
        total_earnings := sqlSumAmount rows
        average_rating := sqlAvgRating rows
        trips := rows.map jsonAggEntry }

/-- The query `SELECT trip_id, amount FROM payments WHERE trip_id IN (?)`, guarded by
`if (tripIds.length > 0)`; `none` means the query was never issued and the
`payments` variable kept its initial `[]`. -/
def paymentsQuery (s : Store) (tripIds : List Int) : Option (List Payment) :=
  if 0 < tripIds.length then
    some (s.payments.filter (fun p => tripIds.contains p.trip_id))
  else none

/-- The query `SELECT trip_id, rating_value, comment FROM ratings WHERE trip_id IN (?)`,
guarded by `if (tripIds.length > 0)`. -/
def ratingsQuery (s : Store) (tripIds : List Int) : Option (List Rating) :=
  if 0 < tripIds.length then
    some (s.ratings.filter (fun r => tripIds.contains r.trip_id))
  else none

/-- The application-side merge of one trip with
`payments.find(p => p.trip_id === trip.trip_id)` and the analogous rating
lookup. -/
def mergeTripDetail (payments : List Payment) (ratings : List Rating)
    (t : Trip) : TripDetail :=
  let payment := payments.find? (fun p => p.trip_id == t.id)
  let rating := ratings.find? (fun r => r.trip_id == t.id)
  { trip_id := t.id
    start_location := t.start_location
    end_location := t.end_location
    trip_date := t.trip_date
    amount := (payment.map Payment.amount).getD 0
    rating_value := (rating.map Rating.rating_value).getD 0
    comment := (rating.map Rating.comment).getD "" }

/-- Model of `DatabaseService.getDriverAnalyticsOptimized`: the fan-out strategy —
driver lookup, all trips (no limit), payments and ratings keyed by the
trip-id set, merged in memory; average over details with
`rating_value > 0`, unrounded. -/
def getDriverAnalyticsOptimized (s : Store) (driverId : Int) :
    Except AggError (DriverAnalytics TripDetail) :=
  match findDriver s driverId with
  | none => .error .notFound
  | some d =>
    let trips := tripsOf s driverId
    let tripIds := trips.map Trip.id
    let payments := (paymentsQuery s tripIds).getD []
    let ratings := (ratingsQuery s tripIds).getD []
    let tripDetails := trips.map (mergeTripDetail payments ratings)
    let totalEarnings := qsum (tripDetails.map TripDetail.amount)
    let totalRatings := tripDetails.filter (fun d0 => decide (0 < d0.rating_value))
    let averageRating :=
      if 0 < totalRatings.length then
        qdivNat (qsum (totalRatings.map TripDetail.rating_value)) totalRatings.length
      else 0
    .ok
      { driver_id := d.id
        driver_name := d.driver_name
        phone_number := d.phone_number
        onboarding_date := d.onboarding_date
        total_trips := trips.length
        total_earnings := totalEarnings
        average_rating := averageRating
        trips := tripDetails }

end DatabaseService

/-! ### HTTP boundary (`driver-analytics.dto.ts` / controller) -/

/-- The numeric-string check behind `@IsNumberString` (validator.js
`isNumeric` with default options): an optional sign, then digits with at
most one decimal point and at least one fractional digit after it. -/
def isNumberString (str : String) : Bool :=
  let l := str.toList
  let l := match l with
    | c :: rest => if c == '+' || c == '-' then rest else l
    | [] => []
  match l.span Char.isDigit with
  | (ds, []) => !ds.isEmpty
  | (_, c :: rest) => (c == '.') && !rest.isEmpty && rest.all Char.isDigit

/-- Value of a digit list (most significant first). -/
def digitsToNat (l : List Char) : Nat :=
  l.foldl (fun n c => 10 * n + (c.toNat - '0'.toNat)) 0

/-- Model of `Number(str)` for strings accepted by `isNumberString`: the exact
rational value of the optionally signed decimal numeral. -/
def parseNumber (str : String) : ℚ :=
  let (sign, l) : Int × List Char :=
    match str.toList with
    | c :: rest =>
      if c == '-' then (-1, rest)
      else if c == '+' then (1, rest) else (1, str.toList)
    | [] => (1, [])
  match l.span Char.isDigit with
  | (ds, []) => mkRat (sign * (digitsToNat ds : Int)) 1
  | (ds, _ :: rest) =>
    mkRat (sign * ((digitsToNat ds : Int) * (10 : Int) ^ rest.length + (digitsToNat rest : Int)))
      ((10 : Nat) ^ rest.length)

namespace TripAnalyticsController

/-- The route `GET /drivers/:driverId/analytics`: the `ValidationPipe` applies
`@IsNumberString` to the raw path parameter before the service is invoked;
on failure the request is rejected with a 400 (`invalidArgument`) and no
data-store access happens.  On success the controller calls the cached
service with `Number(params.driverId)`; a non-integer numeric id is
rejected by Prisma inside the data-store layer (`storeError`). -/
def getDriverAnalytics (input : String) (s : Store) (c : Cache)
    (getFails setFails : Bool) : Except AggError (DriverAnalytics TripDetail) :=
  if isNumberString input then
    let q := parseNumber input
    if q.den == 1 then
      (TripAnalyticsService.getDriverAnalytics s c getFails setFails q.num).map Prod.fst
    else .error .storeError
  else .error .invalidArgument

end TripAnalyticsController

/-! ### Well-formedness of the store

The schema's shape (§6 of the spec): primary keys are unique and each trip
has at most one payment row and at most one rating row. -/

/-- Returns `true` iff `f` is injective on the list's elements, i.e. the key column
has no duplicates. -/
def pairwiseDistinct (f : α → Int) : List α → Bool
  | [] => true
  | a :: l => l.all (fun b => f b != f a) && pairwiseDistinct f l

/-- Well-formed store: unique driver ids, unique trip ids, at most one
payment per trip, at most one rating per trip. -/
def Store.wf (s : Store) : Bool :=
  pairwiseDistinct Driver.id s.drivers && pairwiseDistinct Trip.id s.trips
    && pairwiseDistinct Payment.trip_id s.payments
    && pairwiseDistinct Rating.trip_id s.ratings

/-! ### Claim-side (specification) quantities -/

/-- The positive rating values attached to the given trips. -/
def specRatingVals (s : Store) (ts : List Trip) : List ℚ :=
  (ts.filterMap (fun t => (ratingFor s t.id).map Rating.rating_value)).filter
    (fun v => decide (0 < v))

/-- Mean of the rating values attached to the given trips, restricted to
positive values, `0` when there is none — the spec's `average_rating` rule
applied to a given trip set. -/
def specMeanRating (s : Store) (ts : List Trip) : ℚ :=
  let vals := specRatingVals s ts
  if vals.isEmpty then 0 else qdivNat (qsum vals) vals.length

/-- Mean of all rating values attached to the given trips (no positivity
filter) — what the data store's `AVG(r.rating_value)` computes. -/
def sqlMeanAllRatings (s : Store) (ts : List Trip) : ℚ :=
  let vals := ts.filterMap (fun t => (ratingFor s t.id).map Rating.rating_value)
  if vals.isEmpty then 0 else qdivNat (qsum vals) vals.length

/-- The spec's `average_rating`: mean over the positive ratings of all the
driver's trips. -/
def claimedAverageRating (s : Store) (driverId : Int) : ℚ :=
  specMeanRating s (tripsOf s driverId)

/-- The spec's `total_earnings`: sum over all the driver's trips of the
payment amount, a missing payment contributing `0`. -/
def claimedTotalEarnings (s : Store) (driverId : Int) : ℚ :=
  qsum ((tripsOf s driverId).map
    (fun t => ((paymentFor s t.id).map Payment.amount).getD 0))

/-! ### Concrete stores used by the test scenarios -/

/-- The spec's concrete scenario (§8): driver 1 with three trips — amounts
150 / 200 / none, ratings 4.5 / none / 4.0 — and driver 2 with zero
trips. -/
def sampleStore : Store :=
  { drivers := [⟨1, "John Doe", "+1234567890", 0⟩, ⟨2, "Jane Smith", "+1234567891", 0⟩]
    trips := [⟨1, 1, "New York", "Boston", 1⟩, ⟨2, 1, "Boston", "Philadelphia", 2⟩,
      ⟨3, 1, "Philadelphia", "Washington DC", 3⟩]
    payments := [⟨1, 1, 150⟩, ⟨2, 2, 200⟩]
    ratings := [⟨1, 1, mkRat 9 2, "Great service!"⟩, ⟨2, 3, 4, "Good trip"⟩] }

/-- Driver 1 with two trips whose ratings are 0 and 5: a store on which the
data store's `AVG(r.rating_value)` (5/2) and the application-side mean over
positive ratings (5) disagree by more than 0.01. -/
def zeroRatingStore : Store :=
  { drivers := [⟨1, "J", "p", 0⟩]
    trips := [⟨1, 1, "A", "B", 1⟩, ⟨2, 1, "B", "C", 2⟩]
    payments := []
    ratings := [⟨1, 1, 0, ""⟩, ⟨2, 2, 5, ""⟩] }

/-- Driver 1 with three rated trips (5, 4, 4): the exact mean 13/3 is not
representable with two decimal digits. -/
def thirdsStore : Store :=
  { drivers := [⟨1, "J", "p", 0⟩]
    trips := [⟨1, 1, "A", "B", 1⟩, ⟨2, 1, "B", "C", 2⟩, ⟨3, 1, "C", "D", 3⟩]
    payments := []
    ratings := [⟨1, 1, 5, ""⟩, ⟨2, 2, 4, ""⟩, ⟨3, 3, 4, ""⟩] }

/-- Driver 1 with 51 trips (dates 1..51), the oldest rated 1 and all others
rated 5: the Prisma detail queries keep only the 50 most recent trips. -/
def manyTripsStore : Store :=
  { drivers := [⟨1, "J", "p", 0⟩]
    trips := (List.range 51).map (fun i => ⟨(i : Int) + 1, 1, "A", "B", (i : Int) + 1⟩)
    payments := []
    ratings := (List.range 51).map
      (fun i => ⟨(i : Int) + 1, (i : Int) + 1, if i == 0 then 1 else 5, ""⟩) }

/-! ### Infrastructure lemmas -/

theorem qadd_eq (a b : ℚ) : qadd a b = a + b := by
  rw [qadd, Rat.mkRat_eq_div]
  have ha : ((a.den : ℚ)) ≠ 0 := by
    exact_mod_cast a.den_nz
  have hb : ((b.den : ℚ)) ≠ 0 := by
    exact_mod_cast b.den_nz
  rw [div_eq_iff (by push_cast; exact mul_ne_zero ha hb)]
  have hA := (div_eq_iff ha).mp (Rat.num_div_den a)
  have hB := (div_eq_iff hb).mp (Rat.num_div_den b)
  push_cast
  rw [hA, hB]
  ring

theorem qsum_eq : ∀ l : List ℚ, qsum l = l.sum := by
  intro l
  induction l with
  | nil => rfl
  | cons a l ih => rw [qsum, qadd_eq, ih, List.sum_cons]

theorem qdivNat_eq (a : ℚ) (n : Nat) : qdivNat a n = a / n := by
  rw [qdivNat, Rat.mkRat_eq_div]
  push_cast
  conv_rhs => rw [← Rat.num_div_den a]
  rw [div_div]

theorem qmulInt_eq (a : ℚ) (n : Int) : qmulInt a n = a * n := by
  rw [qmulInt, Rat.mkRat_eq_div]
  push_cast
  conv_rhs => rw [← Rat.num_div_den a]
  ring

theorem rat_floor_eq (x : ℚ) : Rat.floor x = ⌊x⌋ :=
  (Rat.floor_def' x).trans Rat.floor_def.symm

theorem round2_eq (q : ℚ) : round2 q = ((⌊q * 100 + 1 / 2⌋ : ℤ) : ℚ) / 100 := by
  rw [round2, Rat.mkRat_eq_div, rat_floor_eq, qadd_eq, qmulInt_eq]
  have h1 : (mkRat 1 2 : ℚ) = 1 / 2 := by
    rw [Rat.mkRat_eq_div]
    norm_num
  have h2 : ((100 : Int) : ℚ) = 100 := by norm_num
  rw [h1, h2]
  norm_num

theorem hasTwoDecimals_eq (q : ℚ) : hasTwoDecimals q = ((q * 100).den == 1) := by
  rw [hasTwoDecimals, qmulInt_eq]
  norm_num

theorem countP_le_one_of_pairwiseDistinct (f : α → Int) :
    ∀ l : List α, pairwiseDistinct f l = true → ∀ k : Int,
      l.countP (fun a => f a == k) ≤ 1 := by
  intro l
  induction l with
  | nil => intro _ k; simp [List.countP_nil]
  | cons a l ih =>
    intro h k
    rw [pairwiseDistinct, Bool.and_eq_true, List.all_eq_true] at h
    rw [List.countP_cons]
    by_cases hfa : (f a == k) = true
    · have hz : l.countP (fun b => f b == k) = 0 := by
        rw [List.countP_eq_zero]
        intro b hb
        have := h.1 b hb
        rw [bne_iff_ne] at this
        simp only [beq_iff_eq] at hfa ⊢
        rw [hfa] at this
        exact this
      simp [hfa, hz]
    · simp only [hfa, if_false]
      simpa using ih h.2 k

theorem filter_find?_of_countP_le_one (p : α → Bool) :
    ∀ l : List α, l.countP p ≤ 1 →
      (l.filter p = [] ∧ l.find? p = none) ∨
        ∃ a, l.filter p = [a] ∧ l.find? p = some a := by
  intro l
  induction l with
  | nil => intro _; left; simp
  | cons a l ih =>
    intro h
    rw [List.countP_cons] at h
    by_cases hpa : p a = true
    · right
      refine ⟨a, ?_, ?_⟩
      · have hz : l.countP p = 0 := by rw [if_pos hpa] at h; omega
        rw [List.filter_cons_of_pos hpa]
        rw [List.countP_eq_zero] at hz
        have hnil : l.filter p = [] := by
          rw [List.filter_eq_nil_iff]; exact hz
        rw [hnil]
      · exact List.find?_cons_of_pos _ hpa
    · have h' : l.countP p ≤ 1 := by simp [hpa] at h; omega
      rcases ih h' with ⟨h1, h2⟩ | ⟨b, h1, h2⟩
      · left
        rw [List.filter_cons_of_neg hpa, List.find?_cons_of_neg _ hpa]
        exact ⟨h1, h2⟩
      · right
        exact ⟨b, by rw [List.filter_cons_of_neg hpa]; exact h1,
          by rw [List.find?_cons_of_neg _ hpa]; exact h2⟩

theorem paymentMatches_eq (s : Store) (tripId : Int)
    (h : s.payments.countP (fun p => p.trip_id == tripId) ≤ 1) :
    paymentMatches s tripId = [paymentFor s tripId] := by
  rcases filter_find?_of_countP_le_one _ _ h with ⟨h1, h2⟩ | ⟨a, h1, h2⟩ <;>
    simp [paymentMatches, paymentFor, h1, h2]

theorem ratingMatches_eq (s : Store) (tripId : Int)
    (h : s.ratings.countP (fun r => r.trip_id == tripId) ≤ 1) :
    ratingMatches s tripId = [ratingFor s tripId] := by
  rcases filter_find?_of_countP_le_one _ _ h with ⟨h1, h2⟩ | ⟨a, h1, h2⟩ <;>
    simp [ratingMatches, ratingFor, h1, h2]

theorem flatMap_eq_map_of_singleton {F : α → List β} {g : α → β} :
    ∀ l : List α, (∀ a ∈ l, F a = [g a]) → l.flatMap F = l.map g := by
  intro l
  induction l with
  | nil => intro _; rfl
  | cons a l ih =>
    intro h
    rw [List.flatMap_cons, List.map_cons, h a (List.mem_cons_self a l),
      ih (fun b hb => h b (List.mem_cons_of_mem a hb))]
    rfl

/-- A well-formed store decomposed. -/
theorem wf_parts {s : Store} (h : s.wf = true) :
    pairwiseDistinct Driver.id s.drivers = true ∧
      pairwiseDistinct Trip.id s.trips = true ∧
      pairwiseDistinct Payment.trip_id s.payments = true ∧
      pairwiseDistinct Rating.trip_id s.ratings = true := by
  rw [Store.wf] at h
  simp only [Bool.and_eq_true] at h
  exact ⟨h.1.1.1, h.1.1.2, h.1.2, h.2⟩

/-- Under well-formedness the three-table join has exactly one row per
trip, carrying the trip's unique payment and rating. -/
theorem tripJoinRows_eq (s : Store) (driverId : Int) (hwf : s.wf = true) :
    tripJoinRows s driverId =
      (tripsOf s driverId).map
        (fun t => ⟨some t, paymentFor s t.id, ratingFor s t.id⟩) := by
  apply flatMap_eq_map_of_singleton
  intro t _
  rw [paymentMatches_eq s t.id
    (countP_le_one_of_pairwiseDistinct _ _ (wf_parts hwf).2.2.1 t.id)]
  rw [ratingMatches_eq s t.id
    (countP_le_one_of_pairwiseDistinct _ _ (wf_parts hwf).2.2.2 t.id)]
  rfl

theorem sqlCountTrips_map (s : Store) (l : List Trip) :
    sqlCountTrips (l.map (fun t => ⟨some t, paymentFor s t.id, ratingFor s t.id⟩)) =
      l.length := by
  rw [sqlCountTrips, List.countP_map]
  simp [Function.comp_def]

theorem sum_filterMap_opt (h : α → Option β) (v : β → ℚ) :
    ∀ l : List α,
      ((l.filterMap h).map v).sum = (l.map (fun a => ((h a).map v).getD 0)).sum := by
  intro l
  induction l with
  | nil => rfl
  | cons a l ih =>
    cases hha : h a with
    | none => simp [List.filterMap_cons, hha, ih]
    | some b => simp [List.filterMap_cons, hha, ih]

theorem singleRows_filterMap_payment (s : Store) (l : List Trip) :
    ((l.map (fun t => (⟨some t, paymentFor s t.id, ratingFor s t.id⟩ : JoinRow))).filterMap
        JoinRow.payment).map Payment.amount =
      l.filterMap (fun t => (paymentFor s t.id).map Payment.amount) := by
  rw [List.filterMap_map]
  exact List.map_filterMap _ _ _

theorem singleRows_filterMap_rating (s : Store) (l : List Trip) :
    ((l.map (fun t => (⟨some t, paymentFor s t.id, ratingFor s t.id⟩ : JoinRow))).filterMap
        JoinRow.rating).map Rating.rating_value =
      l.filterMap (fun t => (ratingFor s t.id).map Rating.rating_value) := by
  rw [List.filterMap_map]
  exact List.map_filterMap _ _ _

theorem sum_filterMap_getD (h : α → Option ℚ) :
    ∀ l : List α, (l.filterMap h).sum = (l.map (fun a => (h a).getD 0)).sum := by
  intro l
  induction l with
  | nil => rfl
  | cons a l ih =>
    cases hha : h a with
    | none => simp [List.filterMap_cons, hha, ih]
    | some b => simp [List.filterMap_cons, hha, ih]

theorem sqlSumAmount_map (s : Store) (l : List Trip) :
    sqlSumAmount (l.map (fun t => ⟨some t, paymentFor s t.id, ratingFor s t.id⟩)) =
      qsum (l.map (fun t => ((paymentFor s t.id).map Payment.amount).getD 0)) := by
  rw [sqlSumAmount, singleRows_filterMap_payment, qsum_eq, qsum_eq,
    sum_filterMap_getD (fun t => (paymentFor s t.id).map Payment.amount) l]

theorem sqlAvgRating_map (s : Store) (l : List Trip) :
    sqlAvgRating (l.map (fun t => ⟨some t, paymentFor s t.id, ratingFor s t.id⟩)) =
      sqlMeanAllRatings s l := by
  simp only [sqlAvgRating, sqlMeanAllRatings]
  rw [singleRows_filterMap_rating s l]

theorem isEmpty_eq_of_length_eq {l : List α} {l' : List β}
    (h : l.length = l'.length) : l.isEmpty = l'.isEmpty := by
  cases l <;> cases l' <;> simp_all

theorem validVals_eq (s : Store) :
    ∀ l : List Trip,
      (((l.map (TripAnalyticsService.tripDetail s)).filter
          (fun d => decide (0 < d.rating_value))).map TripDetail.rating_value) =
        specRatingVals s l := by
  intro l
  induction l with
  | nil => rfl
  | cons t l ih =>
    have hrv : (TripAnalyticsService.tripDetail s t).rating_value =
        ((ratingFor s t.id).map Rating.rating_value).getD 0 := rfl
    cases h : ratingFor s t.id with
    | none =>
      simp only [specRatingVals, List.filterMap_cons, h, Option.map_none', List.map_cons]
      rw [List.filter_cons_of_neg (by rw [hrv, h]; simp)]
      rw [ih]
      rfl
    | some r =>
      simp only [specRatingVals, List.filterMap_cons, h, Option.map_some', List.map_cons]
      by_cases hr : (0 : ℚ) < r.rating_value
      · rw [List.filter_cons_of_pos (by rw [hrv, h]; simpa using hr),
          List.filter_cons_of_pos (by simpa using hr), List.map_cons, hrv, h]
        rw [ih]
        rfl
      · rw [List.filter_cons_of_neg (by rw [hrv, h]; simpa using hr),
          List.filter_cons_of_neg (by simpa using hr)]
        rw [ih]
        rfl

theorem validVals_length (s : Store) (l : List Trip) :
    ((l.map (TripAnalyticsService.tripDetail s)).filter
        (fun d => decide (0 < d.rating_value))).length =
      (specRatingVals s l).length := by
  have hc := congrArg List.length (validVals_eq s l)
  rw [List.length_map] at hc
  exact hc

theorem calcAverageRating_map (s : Store) (l : List Trip) :
    TripAnalyticsService.calcAverageRating (l.map (TripAnalyticsService.tripDetail s)) =
      specMeanRating s l := by
  have h1 := validVals_eq s l
  have h2 := validVals_length s l
  have h3 := isEmpty_eq_of_length_eq h2
  simp only [TripAnalyticsService.calcAverageRating, specMeanRating]
  rw [h3, h1, h2]

theorem length_insertByDateDesc (t : Trip) :
    ∀ l : List Trip, (insertByDateDesc t l).length = l.length + 1 := by
  intro l
  induction l with
  | nil => rfl
  | cons u us ih =>
    rw [insertByDateDesc]
    by_cases h : u.trip_date ≤ t.trip_date
    · rw [if_pos h]; rfl
    · rw [if_neg h, List.length_cons, ih]; rfl

theorem length_sortByDateDesc :
    ∀ l : List Trip, (sortByDateDesc l).length = l.length := by
  intro l
  induction l with
  | nil => rfl
  | cons t ts ih =>
    rw [sortByDateDesc, length_insertByDateDesc, ih]; rfl

theorem mem_insertByDateDesc {x t : Trip} :
    ∀ l : List Trip, x ∈ insertByDateDesc t l → x = t ∨ x ∈ l := by
  intro l
  induction l with
  | nil => intro h; rw [insertByDateDesc] at h; simpa using h
  | cons u us ih =>
    intro h
    rw [insertByDateDesc] at h
    by_cases hc : u.trip_date ≤ t.trip_date
    · rw [if_pos hc] at h
      rcases List.mem_cons.mp h with h1 | h1
      · exact Or.inl h1
      · exact Or.inr h1
    · rw [if_neg hc] at h
      rcases List.mem_cons.mp h with h1 | h1
      · exact Or.inr (List.mem_cons.mpr (Or.inl h1))
      · rcases ih h1 with h2 | h2
        · exact Or.inl h2
        · exact Or.inr (List.mem_cons.mpr (Or.inr h2))

theorem mem_sortByDateDesc {x : Trip} :
    ∀ l : List Trip, x ∈ sortByDateDesc l → x ∈ l := by
  intro l
  induction l with
  | nil => intro h; rw [sortByDateDesc] at h; simp at h
  | cons t ts ih =>
    intro h
    rw [sortByDateDesc] at h
    rcases mem_insertByDateDesc _ h with h1 | h1
    · exact List.mem_cons.mpr (Or.inl h1)
    · exact List.mem_cons.mpr (Or.inr (ih h1))

theorem recentTrips_subset (s : Store) (driverId : Int) :
    ∀ t ∈ TripAnalyticsService.recentTrips s driverId, t ∈ tripsOf s driverId := by
  intro t ht
  rw [TripAnalyticsService.recentTrips] at ht
  exact mem_sortByDateDesc _ (List.take_subset _ _ ht)

theorem specRatingVals_nil_of_subset (s : Store) {l l' : List Trip}
    (hsub : ∀ t ∈ l', t ∈ l) (h : specRatingVals s l = []) :
    specRatingVals s l' = [] := by
  rw [specRatingVals, List.filter_eq_nil_iff]
  rw [specRatingVals, List.filter_eq_nil_iff] at h
  intro v hv
  rcases List.mem_filterMap.mp hv with ⟨t, ht, hft⟩
  exact h v (List.mem_filterMap.mpr ⟨t, hsub t ht, hft⟩)

theorem hasTwoDecimals_round2 (q : ℚ) : hasTwoDecimals (round2 q) = true := by
  rw [hasTwoDecimals_eq, round2_eq]
  have h100 : (100 : ℚ) ≠ 0 := by norm_num
  rw [div_mul_cancel₀ _ h100]
  simp [Rat.den_intCast]

theorem find?_filter_of_imp (q p : α → Bool)
    (himp : ∀ a, p a = true → q a = true) :
    ∀ l : List α, (l.filter q).find? p = l.find? p := by
  intro l
  induction l with
  | nil => rfl
  | cons a l ih =>
    by_cases hq : q a = true
    · rw [List.filter_cons_of_pos hq]
      by_cases hp : p a = true
      · rw [List.find?_cons_of_pos _ hp, List.find?_cons_of_pos _ hp]
      · rw [List.find?_cons_of_neg _ hp, List.find?_cons_of_neg _ hp, ih]
    · rw [List.filter_cons_of_neg hq]
      have hp : ¬p a = true := fun hpa => hq (himp a hpa)
      rw [List.find?_cons_of_neg _ hp, ih]

theorem mergeTripDetail_eq (s : Store) (tids : List Int) (t : Trip)
    (ht : t.id ∈ tids) :
    DatabaseService.mergeTripDetail
        (s.payments.filter (fun p => tids.contains p.trip_id))
        (s.ratings.filter (fun r => tids.contains r.trip_id)) t =
      TripAnalyticsService.tripDetail s t := by
  have hp : (s.payments.filter (fun p => tids.contains p.trip_id)).find?
      (fun p => p.trip_id == t.id) = paymentFor s t.id := by
    rw [paymentFor]
    apply find?_filter_of_imp
    intro p0 hp0
    have he : p0.trip_id = t.id := by simpa using hp0
    rw [he]
    simpa using ht
  have hr : (s.ratings.filter (fun r => tids.contains r.trip_id)).find?
      (fun r => r.trip_id == t.id) = ratingFor s t.id := by
    rw [ratingFor]
    apply find?_filter_of_imp
    intro r0 hr0
    have he : r0.trip_id = t.id := by simpa using hr0
    rw [he]
    simpa using ht
  rw [DatabaseService.mergeTripDetail, TripAnalyticsService.tripDetail]
  rw [hp, hr]

theorem isEmpty_true_iff {l : List α} : l.isEmpty = true ↔ l = [] := by
  cases l <;> simp

theorem sqlCountTrips_tripJoinRows (s : Store) (driverId : Int) (hwf : s.wf = true) :
    sqlCountTrips (tripJoinRows s driverId) = (tripsOf s driverId).length := by
  rw [tripJoinRows_eq s driverId hwf, sqlCountTrips_map]

theorem sqlSumAmount_tripJoinRows (s : Store) (driverId : Int) (hwf : s.wf = true) :
    sqlSumAmount (tripJoinRows s driverId) = claimedTotalEarnings s driverId := by
  rw [tripJoinRows_eq s driverId hwf, sqlSumAmount_map]
  rfl

theorem sqlCountTrips_driverJoinRows (s : Store) (driverId : Int) (hwf : s.wf = true) :
    sqlCountTrips (driverJoinRows s driverId) = (tripsOf s driverId).length := by
  rw [driverJoinRows]
  by_cases h : (tripsOf s driverId).isEmpty = true
  · rw [if_pos h, isEmpty_true_iff.mp h]
    rfl
  · rw [if_neg h]
    exact sqlCountTrips_tripJoinRows s driverId hwf

theorem sqlSumAmount_driverJoinRows (s : Store) (driverId : Int) (hwf : s.wf = true) :
    sqlSumAmount (driverJoinRows s driverId) = claimedTotalEarnings s driverId := by
  rw [driverJoinRows]
  by_cases h : (tripsOf s driverId).isEmpty = true
  · rw [if_pos h, claimedTotalEarnings, isEmpty_true_iff.mp h]
    rfl
  · rw [if_neg h]
    exact sqlSumAmount_tripJoinRows s driverId hwf

theorem sqlAvgRating_driverJoinRows (s : Store) (driverId : Int) (hwf : s.wf = true) :
    sqlAvgRating (driverJoinRows s driverId) = sqlMeanAllRatings s (tripsOf s driverId) := by
  rw [driverJoinRows]
  by_cases h : (tripsOf s driverId).isEmpty = true
  · rw [if_pos h, isEmpty_true_iff.mp h]
    rfl
  · rw [if_neg h, tripJoinRows_eq s driverId hwf, sqlAvgRating_map]

theorem tripDetails_length (s : Store) (driverId : Int) :
    (TripAnalyticsService.tripDetails s driverId).length =
      min 50 (tripsOf s driverId).length := by
  rw [TripAnalyticsService.tripDetails, List.length_map, TripAnalyticsService.recentTrips,
    List.length_take, length_sortByDateDesc]

/-- Canonical value of the unoptimized Prisma strategy for an existing
driver. -/
theorem tas_unopt_proj (s : Store) (driverId : Int) (d : Driver)
    (hwf : s.wf = true) (hfind : findDriver s driverId = some d) :
    (TripAnalyticsService.getDriverAnalyticsUnoptimized s driverId).map
        (fun a => (a.total_trips, a.total_earnings, a.average_rating, a.trips.length)) =
      .ok ((tripsOf s driverId).length, claimedTotalEarnings s driverId,
        round2 (specMeanRating s (TripAnalyticsService.recentTrips s driverId)),
        min 50 (tripsOf s driverId).length) := by
  rw [TripAnalyticsService.getDriverAnalyticsUnoptimized, hfind]
  simp only [Except.map]
  rw [sqlCountTrips_driverJoinRows s driverId hwf, sqlSumAmount_driverJoinRows s driverId hwf,
    tripDetails_length]
  rw [TripAnalyticsService.tripDetails, calcAverageRating_map]

/-- Canonical value of the cache-miss computation of the optimized Prisma
strategy for an existing driver: identical to the unoptimized one. -/
theorem tas_compute_proj (s : Store) (driverId : Int) (d : Driver)
    (hwf : s.wf = true) (hfind : findDriver s driverId = some d) :
    (TripAnalyticsService.computeDriverAnalytics s driverId).map
        (fun a => (a.total_trips, a.total_earnings, a.average_rating, a.trips.length)) =
      .ok ((tripsOf s driverId).length, claimedTotalEarnings s driverId,
        round2 (specMeanRating s (TripAnalyticsService.recentTrips s driverId)),
        min 50 (tripsOf s driverId).length) := by
  rw [TripAnalyticsService.computeDriverAnalytics, hfind]
  simp only [Except.map]
  rw [sqlCountTrips_tripJoinRows s driverId hwf, sqlSumAmount_tripJoinRows s driverId hwf,
    tripDetails_length]
  rw [TripAnalyticsService.tripDetails, calcAverageRating_map]

/-- Canonical value of the mysql2 single-query strategy for an existing
driver. -/
theorem dbs_unopt_proj (s : Store) (driverId : Int) (d : Driver)
    (hwf : s.wf = true) (hfind : findDriver s driverId = some d) :
    (DatabaseService.getDriverAnalyticsUnoptimized s driverId).map
        (fun a => (a.total_trips, a.total_earnings, a.average_rating)) =
      .ok ((tripsOf s driverId).length, claimedTotalEarnings s driverId,
        sqlMeanAllRatings s (tripsOf s driverId)) := by
  rw [DatabaseService.getDriverAnalyticsUnoptimized, hfind]
  simp only [Except.map]
  rw [sqlCountTrips_driverJoinRows s driverId hwf, sqlSumAmount_driverJoinRows s driverId hwf,
    sqlAvgRating_driverJoinRows s driverId hwf]

theorem if_length_pos (X : List β) (A : ℚ) :
    (if 0 < X.length then A else 0) = (if X.isEmpty then 0 else A) := by
  cases X <;> simp

/-- The fan-out merge produces exactly the Prisma-relation trip details. -/
theorem dbOpt_details_eq (s : Store) (driverId : Int) :
    (tripsOf s driverId).map
        (DatabaseService.mergeTripDetail
          ((DatabaseService.paymentsQuery s ((tripsOf s driverId).map Trip.id)).getD [])
          ((DatabaseService.ratingsQuery s ((tripsOf s driverId).map Trip.id)).getD [])) =
      (tripsOf s driverId).map (TripAnalyticsService.tripDetail s) := by
  cases h : tripsOf s driverId with
  | nil => rfl
  | cons t l =>
    have hlen : 0 < ((t :: l).map Trip.id).length := by simp
    rw [DatabaseService.paymentsQuery, DatabaseService.ratingsQuery, if_pos hlen, if_pos hlen]
    apply List.map_congr_left
    intro a ha
    exact mergeTripDetail_eq s ((t :: l).map Trip.id) a (List.mem_map_of_mem Trip.id ha)

/-- Canonical value of the mysql2 fan-out strategy for an existing driver:
all of the driver's trips, the spec-side earnings sum, the exact mean over
positive ratings. -/
theorem dbs_opt_proj (s : Store) (driverId : Int) (d : Driver)
    (hfind : findDriver s driverId = some d) :
    (DatabaseService.getDriverAnalyticsOptimized s driverId).map
        (fun a => (a.total_trips, a.total_earnings, a.average_rating, a.trips.length)) =
      .ok ((tripsOf s driverId).length, claimedTotalEarnings s driverId,
        specMeanRating s (tripsOf s driverId), (tripsOf s driverId).length) := by
  rw [DatabaseService.getDriverAnalyticsOptimized, hfind]
  simp only [Except.map]
  rw [dbOpt_details_eq s driverId]
  rw [if_length_pos]
  have havg := calcAverageRating_map s (tripsOf s driverId)
  simp only [TripAnalyticsService.calcAverageRating] at havg
  rw [havg]
  have hsum : qsum (((tripsOf s driverId).map (TripAnalyticsService.tripDetail s)).map
      TripDetail.amount) = claimedTotalEarnings s driverId := by
    rw [List.map_map, claimedTotalEarnings]
    rfl
  rw [hsum, List.length_map]

/-- When every rating row in the store is positive, the data store's plain
`AVG` and the positive-only mean coincide. -/
theorem sqlMeanAll_eq_specMean (s : Store) (l : List Trip)
    (hpos : ∀ r ∈ s.ratings, 0 < r.rating_value) :
    sqlMeanAllRatings s l = specMeanRating s l := by
  have hfix : specRatingVals s l =
      l.filterMap (fun t => (ratingFor s t.id).map Rating.rating_value) := by
    rw [specRatingVals, List.filter_eq_self]
    intro v hv
    rcases List.mem_filterMap.mp hv with ⟨t, _, hft⟩
    cases hrf : ratingFor s t.id with
    | none => rw [hrf] at hft; simp at hft
    | some r =>
      rw [hrf] at hft
      have hvr : r.rating_value = v := by simpa using hft
      have hrmem : r ∈ s.ratings := by
        rw [ratingFor] at hrf
        exact List.mem_of_find?_eq_some hrf
      rw [← hvr]
      simpa using hpos r hrmem
  rw [sqlMeanAllRatings, specMeanRating, hfix]

theorem round2_zero : round2 0 = 0 := by decide

theorem specMeanRating_eq_zero {s : Store} {l : List Trip}
    (h : specRatingVals s l = []) : specMeanRating s l = 0 := by
  rw [specMeanRating, h]
  rfl

/-! ### Claim theorems -/

/-- C4: for every driver identifier with no matching driver row, every
strategy — including the cached one when the cache has no entry for the
key — fails with the `NotFound` kind and returns no partial analytics
value. -/
theorem c4_unknown_driver_not_found (s : Store) (driverId : Int)
    (h : findDriver s driverId = none) :
    TripAnalyticsService.getDriverAnalyticsUnoptimized s driverId = .error .notFound ∧
    TripAnalyticsService.computeDriverAnalytics s driverId = .error .notFound ∧
    DatabaseService.getDriverAnalyticsUnoptimized s driverId = .error .notFound ∧
    DatabaseService.getDriverAnalyticsOptimized s driverId = .error .notFound ∧
    (∀ (c : Cache) (gFail sFail : Bool), redisGet c gFail driverId = none →
      TripAnalyticsService.getDriverAnalytics s c gFail sFail driverId =
        .error .notFound) := by
  refine ⟨?_, ?_, ?_, ?_, ?_⟩
  · rw [TripAnalyticsService.getDriverAnalyticsUnoptimized, h]
  · rw [TripAnalyticsService.computeDriverAnalytics, h]
  · rw [DatabaseService.getDriverAnalyticsUnoptimized, h]
  · rw [DatabaseService.getDriverAnalyticsOptimized, h]
  · intro c gFail sFail hmiss
    rw [TripAnalyticsService.getDriverAnalytics, hmiss,
      TripAnalyticsService.computeDriverAnalytics, h]

/-- Closed instance of `c4_unknown_driver_not_found` at driver id 999999 of
the sample store. -/
theorem c4_unknown_driver_not_found_witness :
    findDriver sampleStore 999999 = none ∧
    DatabaseService.getDriverAnalyticsOptimized sampleStore 999999 = .error .notFound ∧
    TripAnalyticsService.getDriverAnalyticsUnoptimized sampleStore 999999 =
      .error .notFound :=
  ⟨by decide, (c4_unknown_driver_not_found sampleStore 999999 (by decide)).2.2.2.1,
    (c4_unknown_driver_not_found sampleStore 999999 (by decide)).1⟩

/-- C5: in every strategy, `total_earnings` is the sum over all of the
driver's trips of the trip's payment amount with a missing payment
contributing 0, and `total_trips` counts all trips — no trip is excluded
for lacking a payment. -/
theorem c5_total_earnings_all_trips (s : Store) (driverId : Int) (d : Driver)
    (hwf : s.wf = true) (hfind : findDriver s driverId = some d) :
    (TripAnalyticsService.getDriverAnalyticsUnoptimized s driverId).map
        (fun a => (a.total_trips, a.total_earnings)) =
      .ok ((tripsOf s driverId).length, claimedTotalEarnings s driverId) ∧
    (TripAnalyticsService.computeDriverAnalytics s driverId).map
        (fun a => (a.total_trips, a.total_earnings)) =
      .ok ((tripsOf s driverId).length, claimedTotalEarnings s driverId) ∧
    (DatabaseService.getDriverAnalyticsUnoptimized s driverId).map
        (fun a => (a.total_trips, a.total_earnings)) =
      .ok ((tripsOf s driverId).length, claimedTotalEarnings s driverId) ∧
    (DatabaseService.getDriverAnalyticsOptimized s driverId).map
        (fun a => (a.total_trips, a.total_earnings)) =
      .ok ((tripsOf s driverId).length, claimedTotalEarnings s driverId) := by
  refine ⟨?_, ?_, ?_, ?_⟩
  · rw [TripAnalyticsService.getDriverAnalyticsUnoptimized, hfind]
    simp only [Except.map]
    rw [sqlCountTrips_driverJoinRows s driverId hwf, sqlSumAmount_driverJoinRows s driverId hwf]
  · rw [TripAnalyticsService.computeDriverAnalytics, hfind]
    simp only [Except.map]
    rw [sqlCountTrips_tripJoinRows s driverId hwf, sqlSumAmount_tripJoinRows s driverId hwf]
  · rw [DatabaseService.getDriverAnalyticsUnoptimized, hfind]
    simp only [Except.map]
    rw [sqlCountTrips_driverJoinRows s driverId hwf, sqlSumAmount_driverJoinRows s driverId hwf]
  · rw [DatabaseService.getDriverAnalyticsOptimized, hfind]
    simp only [Except.map]
    rw [dbOpt_details_eq s driverId]
    have hsum : qsum (((tripsOf s driverId).map (TripAnalyticsService.tripDetail s)).map
        TripDetail.amount) = claimedTotalEarnings s driverId := by
      rw [List.map_map, claimedTotalEarnings]
      rfl
    rw [hsum]

/-- Closed instance of `c5_total_earnings_all_trips` at the spec's concrete
scenario: driver 1 has payments 150 and 200 and one unpaid trip, so
total_earnings is 350 while total_trips is 3. -/
theorem c5_total_earnings_all_trips_witness :
    (DatabaseService.getDriverAnalyticsOptimized sampleStore 1).map
        (fun a => (a.total_trips, a.total_earnings)) =
      .ok ((tripsOf sampleStore 1).length, claimedTotalEarnings sampleStore 1) ∧
    claimedTotalEarnings sampleStore 1 = 350 ∧
    (tripsOf sampleStore 1).length = 3 :=
  ⟨(c5_total_earnings_all_trips sampleStore 1 ⟨1, "John Doe", "+1234567890", 0⟩
      (by decide) (by decide)).2.2.2, by decide, by decide⟩

/-- C3: for a driver with an empty trip set, the two Prisma strategies and
the mysql2 fan-out return total_trips = 0, total_earnings = 0,
average_rating = 0 with an empty trips list, and the fan-out issues no
payment or rating lookup on the empty key set; the mysql2 single-query
strategy, however, returns a one-element trips list containing an all-null
trip object produced by `JSON_ARRAYAGG` over the null LEFT JOIN row,
contradicting both the spec and the declared `TripDetail[]` shape. -/
theorem c3_empty_trip_set :
    tripsOf sampleStore 2 = [] ∧
    (TripAnalyticsService.getDriverAnalyticsUnoptimized sampleStore 2).map
        (fun a => (a.total_trips, a.total_earnings, a.average_rating, a.trips)) =
      .ok (0, 0, 0, []) ∧
    (TripAnalyticsService.computeDriverAnalytics sampleStore 2).map
        (fun a => (a.total_trips, a.total_earnings, a.average_rating, a.trips)) =
      .ok (0, 0, 0, []) ∧
    (DatabaseService.getDriverAnalyticsOptimized sampleStore 2).map
        (fun a => (a.total_trips, a.total_earnings, a.average_rating, a.trips)) =
      .ok (0, 0, 0, []) ∧
    DatabaseService.paymentsQuery sampleStore ((tripsOf sampleStore 2).map Trip.id) = none ∧
    DatabaseService.ratingsQuery sampleStore ((tripsOf sampleStore 2).map Trip.id) = none ∧
    (DatabaseService.getDriverAnalyticsUnoptimized sampleStore 2).map
        (fun a => (a.total_trips, a.total_earnings, a.average_rating, a.trips)) =
      .ok (0, 0, 0, [⟨none, none, none, none, 0, 0, ""⟩]) := by
  refine ⟨by decide, by decide, by decide, by decide, by decide, by decide, by decide⟩

/-- C1 counterexample: in the store `zeroRatingStore` (driver 1, two trips,
rating rows 0 and 5) the mysql2 single-query strategy averages all present
ratings (5/2) while the fan-out strategy averages only positive ratings
(5); they differ by 5/2, far more than the claimed 0.01 tolerance. -/
theorem c1_counterexample :
    (DatabaseService.getDriverAnalyticsUnoptimized zeroRatingStore 1).map
        (fun a => a.average_rating) = .ok (mkRat 5 2) ∧
    (DatabaseService.getDriverAnalyticsOptimized zeroRatingStore 1).map
        (fun a => a.average_rating) = .ok 5 ∧
    (DatabaseService.getDriverAnalyticsUnoptimized zeroRatingStore 1).map
        (fun a => (a.total_trips, a.total_earnings)) =
      (DatabaseService.getDriverAnalyticsOptimized zeroRatingStore 1).map
        (fun a => (a.total_trips, a.total_earnings)) ∧
    ¬(|(mkRat 5 2 : ℚ) - 5| ≤ mkRat 1 100) := by
  refine ⟨by decide, by decide, by decide, ?_⟩
  rw [Rat.mkRat_eq_div, Rat.mkRat_eq_div]
  simp only [not_le]
  rw [abs_of_nonpos (by norm_num)]
  norm_num

/-- C1 (amended): under the schema's one-to-one-or-zero shape and provided
every rating row has a positive value (the observed 1.0–5.0 range), the
single-query and fan-out strategies of each implementation agree exactly on
total_trips, total_earnings and average_rating — in particular their
averages differ by at most 0.01.  Without the positivity proviso the mysql2
pair can disagree on average_rating by more than 0.01. -/
theorem c1_strategy_agreement (s : Store) (driverId : Int) (d : Driver)
    (hwf : s.wf = true) (hpos : ∀ r ∈ s.ratings, 0 < r.rating_value)
    (hfind : findDriver s driverId = some d) :
    ((TripAnalyticsService.getDriverAnalyticsUnoptimized s driverId).map
        (fun a => (a.total_trips, a.total_earnings, a.average_rating)) =
      (TripAnalyticsService.computeDriverAnalytics s driverId).map
        (fun a => (a.total_trips, a.total_earnings, a.average_rating))) ∧
    ((DatabaseService.getDriverAnalyticsUnoptimized s driverId).map
        (fun a => (a.total_trips, a.total_earnings, a.average_rating)) =
      (DatabaseService.getDriverAnalyticsOptimized s driverId).map
        (fun a => (a.total_trips, a.total_earnings, a.average_rating))) ∧
    (∀ aU aO, DatabaseService.getDriverAnalyticsUnoptimized s driverId = .ok aU →
      DatabaseService.getDriverAnalyticsOptimized s driverId = .ok aO →
      |aU.average_rating - aO.average_rating| ≤ mkRat 1 100) ∧
    (∀ aU aO, TripAnalyticsService.getDriverAnalyticsUnoptimized s driverId = .ok aU →
      TripAnalyticsService.computeDriverAnalytics s driverId = .ok aO →
      |aU.average_rating - aO.average_rating| ≤ mkRat 1 100) := by
  have htas :
      (TripAnalyticsService.getDriverAnalyticsUnoptimized s driverId).map
          (fun a => (a.total_trips, a.total_earnings, a.average_rating)) =
        (TripAnalyticsService.computeDriverAnalytics s driverId).map
          (fun a => (a.total_trips, a.total_earnings, a.average_rating)) := by
    rw [TripAnalyticsService.getDriverAnalyticsUnoptimized, hfind,
      TripAnalyticsService.computeDriverAnalytics, hfind]
    simp only [Except.map]
    rw [sqlCountTrips_driverJoinRows s driverId hwf, sqlSumAmount_driverJoinRows s driverId hwf,
      sqlCountTrips_tripJoinRows s driverId hwf, sqlSumAmount_tripJoinRows s driverId hwf]
  have hdbs :
      (DatabaseService.getDriverAnalyticsUnoptimized s driverId).map
          (fun a => (a.total_trips, a.total_earnings, a.average_rating)) =
        (DatabaseService.getDriverAnalyticsOptimized s driverId).map
          (fun a => (a.total_trips, a.total_earnings, a.average_rating)) := by
    rw [DatabaseService.getDriverAnalyticsUnoptimized, hfind,
      DatabaseService.getDriverAnalyticsOptimized, hfind]
    simp only [Except.map]
    rw [sqlCountTrips_driverJoinRows s driverId hwf, sqlSumAmount_driverJoinRows s driverId hwf,
      sqlAvgRating_driverJoinRows s driverId hwf]
    rw [dbOpt_details_eq s driverId, if_length_pos]
    have havg := calcAverageRating_map s (tripsOf s driverId)
    simp only [TripAnalyticsService.calcAverageRating] at havg
    rw [havg]
    have hsum : qsum (((tripsOf s driverId).map (TripAnalyticsService.tripDetail s)).map
        TripDetail.amount) = claimedTotalEarnings s driverId := by
      rw [List.map_map, claimedTotalEarnings]
      rfl
    rw [hsum]
    rw [sqlMeanAll_eq_specMean s (tripsOf s driverId) hpos]
  refine ⟨htas, hdbs, ?_, ?_⟩
  · intro aU aO hU hO
    rw [hU, hO] at hdbs
    simp only [Except.map, Except.ok.injEq, Prod.mk.injEq] at hdbs
    rw [hdbs.2.2]
    rw [Rat.mkRat_eq_div]
    simp
  · intro aU aO hU hO
    rw [hU, hO] at htas
    simp only [Except.map, Except.ok.injEq, Prod.mk.injEq] at htas
    rw [htas.2.2]
    rw [Rat.mkRat_eq_div]
    simp

/-- Closed instance of `c1_strategy_agreement` at the sample store's driver
1 (ratings 4.5 and 4.0, one unrated trip). -/
theorem c1_strategy_agreement_witness :
    (DatabaseService.getDriverAnalyticsUnoptimized sampleStore 1).map
        (fun a => (a.total_trips, a.total_earnings, a.average_rating)) =
      (DatabaseService.getDriverAnalyticsOptimized sampleStore 1).map
        (fun a => (a.total_trips, a.total_earnings, a.average_rating)) :=
  (c1_strategy_agreement sampleStore 1 ⟨1, "John Doe", "+1234567890", 0⟩
    (by decide) (by decide) (by decide)).2.1

/-- C2 counterexample: in `thirdsStore` (driver 1, three trips rated 5, 4,
4) the mean over the positively rated trips is 13/3, but the Prisma
strategy returns the rounded value 4.33 ≠ 13/3 — so `average_rating` is not
the mean itself. -/
theorem c2_counterexample :
    claimedAverageRating thirdsStore 1 = mkRat 13 3 ∧
    (TripAnalyticsService.computeDriverAnalytics thirdsStore 1).map
        (fun a => a.average_rating) = .ok (mkRat 433 100) ∧
    (mkRat 433 100 : ℚ) ≠ mkRat 13 3 := by
  refine ⟨by decide, by decide, by decide⟩

/-- C2 (amended): `average_rating` is the mean over trips with
rating_value > 0 among the trips each path considers — exactly, over all
trips, in the mysql2 fan-out path; rounded to 2 decimals and restricted to
the 50 most recent trips in the Prisma paths — and it equals 0 (never NaN)
whenever no considered trip has a positive rating. -/
theorem c2_average_rating_rule (s : Store) (driverId : Int) (d : Driver)
    (hfind : findDriver s driverId = some d) :
    ((DatabaseService.getDriverAnalyticsOptimized s driverId).map
        (fun a => a.average_rating) = .ok (claimedAverageRating s driverId)) ∧
    ((TripAnalyticsService.computeDriverAnalytics s driverId).map
        (fun a => a.average_rating) =
      .ok (round2 (specMeanRating s (TripAnalyticsService.recentTrips s driverId)))) ∧
    ((TripAnalyticsService.getDriverAnalyticsUnoptimized s driverId).map
        (fun a => a.average_rating) =
      .ok (round2 (specMeanRating s (TripAnalyticsService.recentTrips s driverId)))) ∧
    (specRatingVals s (tripsOf s driverId) = [] →
      (DatabaseService.getDriverAnalyticsOptimized s driverId).map
          (fun a => a.average_rating) = .ok 0 ∧
      (TripAnalyticsService.computeDriverAnalytics s driverId).map
          (fun a => a.average_rating) = .ok 0 ∧
      (TripAnalyticsService.getDriverAnalyticsUnoptimized s driverId).map
          (fun a => a.average_rating) = .ok 0) := by
  have hdbs : (DatabaseService.getDriverAnalyticsOptimized s driverId).map
      (fun a => a.average_rating) = .ok (claimedAverageRating s driverId) := by
    rw [DatabaseService.getDriverAnalyticsOptimized, hfind]
    simp only [Except.map]
    rw [dbOpt_details_eq s driverId, if_length_pos]
    have havg := calcAverageRating_map s (tripsOf s driverId)
    simp only [TripAnalyticsService.calcAverageRating] at havg
    rw [havg]
    rfl
  have hcompute : (TripAnalyticsService.computeDriverAnalytics s driverId).map
      (fun a => a.average_rating) =
      .ok (round2 (specMeanRating s (TripAnalyticsService.recentTrips s driverId))) := by
    rw [TripAnalyticsService.computeDriverAnalytics, hfind]
    simp only [Except.map]
    rw [TripAnalyticsService.tripDetails, calcAverageRating_map]
  have hunopt : (TripAnalyticsService.getDriverAnalyticsUnoptimized s driverId).map
      (fun a => a.average_rating) =
      .ok (round2 (specMeanRating s (TripAnalyticsService.recentTrips s driverId))) := by
    rw [TripAnalyticsService.getDriverAnalyticsUnoptimized, hfind]
    simp only [Except.map]
    rw [TripAnalyticsService.tripDetails, calcAverageRating_map]
  refine ⟨hdbs, hcompute, hunopt, ?_⟩
  intro h0
  have hall : specMeanRating s (tripsOf s driverId) = 0 := specMeanRating_eq_zero h0
  have hrec : specRatingVals s (TripAnalyticsService.recentTrips s driverId) = [] :=
    specRatingVals_nil_of_subset s (recentTrips_subset s driverId) h0
  have hrec0 : specMeanRating s (TripAnalyticsService.recentTrips s driverId) = 0 :=
    specMeanRating_eq_zero hrec
  refine ⟨?_, ?_, ?_⟩
  · rw [hdbs, claimedAverageRating, hall]
  · rw [hcompute, hrec0, round2_zero]
  · rw [hunopt, hrec0, round2_zero]

/-- Closed instance of `c2_average_rating_rule` at the sample store's
driver 1. -/
theorem c2_average_rating_rule_witness :
    (DatabaseService.getDriverAnalyticsOptimized sampleStore 1).map
        (fun a => a.average_rating) = .ok (claimedAverageRating sampleStore 1) :=
  (c2_average_rating_rule sampleStore 1 ⟨1, "John Doe", "+1234567890", 0⟩ (by decide)).1

/-- C6 counterexample: the mysql2 fan-out strategy returns the exact,
unrounded mean 13/3, which has no 2-decimal representation — so not every
returned `average_rating` is rounded to 2 decimal places. -/
theorem c6_counterexample :
    (DatabaseService.getDriverAnalyticsOptimized thirdsStore 1).map
        (fun a => a.average_rating) = .ok (mkRat 13 3) ∧
    hasTwoDecimals (mkRat 13 3) = false := by
  refine ⟨by decide, by decide⟩

/-- C6 (amended): the Prisma strategies round `average_rating` to exactly 2
decimal places, in the final result only (the returned value is `round2` of
the exact intermediate mean, so no rounding occurs during accumulation);
the mysql2 strategies return the average unrounded. -/
theorem c6_rounding_policy (s : Store) (driverId : Int) (d : Driver)
    (hfind : findDriver s driverId = some d) :
    ((TripAnalyticsService.computeDriverAnalytics s driverId).map
        (fun a => a.average_rating) =
      .ok (round2 (specMeanRating s (TripAnalyticsService.recentTrips s driverId)))) ∧
    ((TripAnalyticsService.getDriverAnalyticsUnoptimized s driverId).map
        (fun a => a.average_rating) =
      .ok (round2 (specMeanRating s (TripAnalyticsService.recentTrips s driverId)))) ∧
    (∀ a, TripAnalyticsService.computeDriverAnalytics s driverId = .ok a →
      hasTwoDecimals a.average_rating = true) ∧
    (∀ a, TripAnalyticsService.getDriverAnalyticsUnoptimized s driverId = .ok a →
      hasTwoDecimals a.average_rating = true) ∧
    ((DatabaseService.getDriverAnalyticsOptimized s driverId).map
        (fun a => a.average_rating) = .ok (specMeanRating s (tripsOf s driverId))) := by
  have hcompute : (TripAnalyticsService.computeDriverAnalytics s driverId).map
      (fun a => a.average_rating) =
      .ok (round2 (specMeanRating s (TripAnalyticsService.recentTrips s driverId))) := by
    rw [TripAnalyticsService.computeDriverAnalytics, hfind]
    simp only [Except.map]
    rw [TripAnalyticsService.tripDetails, calcAverageRating_map]
  have hunopt : (TripAnalyticsService.getDriverAnalyticsUnoptimized s driverId).map
      (fun a => a.average_rating) =
      .ok (round2 (specMeanRating s (TripAnalyticsService.recentTrips s driverId))) := by
    rw [TripAnalyticsService.getDriverAnalyticsUnoptimized, hfind]
    simp only [Except.map]
    rw [TripAnalyticsService.tripDetails, calcAverageRating_map]
  refine ⟨hcompute, hunopt, ?_, ?_, ?_⟩
  · intro a ha
    rw [ha] at hcompute
    simp only [Except.map, Except.ok.injEq] at hcompute
    rw [hcompute]
    exact hasTwoDecimals_round2 _
  · intro a ha
    rw [ha] at hunopt
    simp only [Except.map, Except.ok.injEq] at hunopt
    rw [hunopt]
    exact hasTwoDecimals_round2 _
  · rw [DatabaseService.getDriverAnalyticsOptimized, hfind]
    simp only [Except.map]
    rw [dbOpt_details_eq s driverId, if_length_pos]
    have havg := calcAverageRating_map s (tripsOf s driverId)
    simp only [TripAnalyticsService.calcAverageRating] at havg
    rw [havg]

/-- Closed instance of `c6_rounding_policy` at the sample store's driver 1:
the Prisma path returns the rounded mean of 4.5 and 4.0. -/
theorem c6_rounding_policy_witness :
    (TripAnalyticsService.computeDriverAnalytics sampleStore 1).map
        (fun a => a.average_rating) =
      .ok (round2 (specMeanRating sampleStore
        (TripAnalyticsService.recentTrips sampleStore 1))) :=
  (c6_rounding_policy sampleStore 1 ⟨1, "John Doe", "+1234567890", 0⟩ (by decide)).1

/-- C7: with the store and the cache-failure behaviour unchanged between the
two calls, a second call of the cached strategy returns exactly the value
of the first call — the only side effect of a read, the post-miss cache
write, is a faithful copy of the value it returns. -/
theorem c7_idempotent_reads (s : Store) (c : Cache) (gFail sFail : Bool)
    (driverId : Int) (r1 : DriverAnalytics TripDetail) (c1 : Cache)
    (h : TripAnalyticsService.getDriverAnalytics s c gFail sFail driverId = .ok (r1, c1)) :
    (TripAnalyticsService.getDriverAnalytics s c1 gFail sFail driverId).map Prod.fst =
      .ok r1 := by
  rw [TripAnalyticsService.getDriverAnalytics] at h
  cases hg : redisGet c gFail driverId with
  | some v =>
    rw [hg] at h
    obtain ⟨hr1, hc1⟩ : v = r1 ∧ c = c1 := by
      have h' : (Except.ok (v, c) : Except AggError (DriverAnalytics TripDetail × Cache)) =
          .ok (r1, c1) := h
      injection h' with h''
      exact ⟨congrArg Prod.fst h'', congrArg Prod.snd h''⟩
    rw [TripAnalyticsService.getDriverAnalytics, ← hc1, hg]
    simp only [Except.map]
    rw [hr1]
  | none =>
    rw [hg] at h
    cases hcomp : TripAnalyticsService.computeDriverAnalytics s driverId with
    | error e =>
      rw [hcomp] at h
      exact absurd h (by simp)
    | ok a =>
      rw [hcomp] at h
      obtain ⟨hr1, hc1⟩ : a = r1 ∧ redisSet c sFail driverId a = c1 := by
        have h' : (Except.ok (a, redisSet c sFail driverId a) :
            Except AggError (DriverAnalytics TripDetail × Cache)) = .ok (r1, c1) := h
        injection h' with h''
        exact ⟨congrArg Prod.fst h'', congrArg Prod.snd h''⟩
      rw [TripAnalyticsService.getDriverAnalytics, ← hc1]
      cases gFail with
      | true =>
        have hg2 : redisGet (redisSet c sFail driverId a) true driverId = none := rfl
        rw [hg2, hcomp]
        simp only [Except.map]
        rw [hr1]
      | false =>
        cases sFail with
        | true =>
          have hs : redisSet c true driverId a = c := rfl
          rw [hs, hg, hcomp]
          simp only [Except.map]
          rw [hr1]
        | false =>
          have hg2 : redisGet (redisSet c false driverId a) false driverId = some a := by
            rw [redisSet, redisGet]
            simp [List.find?_cons]
          rw [hg2]
          simp only [Except.map]
          rw [hr1]

/-- Closed instance of `c7_idempotent_reads`: the first call on an empty
cache for driver 2 of the sample store computes the zero-trip analytics and
caches it; the second call returns the same value. -/
theorem c7_idempotent_reads_witness :
    (TripAnalyticsService.getDriverAnalytics sampleStore
        [(2, ⟨2, "Jane Smith", "+1234567891", 0, 0, 0, 0, []⟩)] false false 2).map
      Prod.fst = .ok ⟨2, "Jane Smith", "+1234567891", 0, 0, 0, 0, []⟩ :=
  c7_idempotent_reads sampleStore [] false false 2
    ⟨2, "Jane Smith", "+1234567891", 0, 0, 0, 0, []⟩
    [(2, ⟨2, "Jane Smith", "+1234567891", 0, 0, 0, 0, []⟩)] (by decide)

/-- C9: cache failures never surface: a read failure behaves exactly like a
miss (the result is the fresh computation), a write failure leaves the
returned value unchanged, and any error the cached operation returns comes
from the underlying computation, never from the cache. -/
theorem c9_cache_failures_not_surfaced (s : Store) (c : Cache) (driverId : Int) :
    (∀ sFail, (TripAnalyticsService.getDriverAnalytics s c true sFail driverId).map
        Prod.fst = TripAnalyticsService.computeDriverAnalytics s driverId) ∧
    (∀ gFail, (TripAnalyticsService.getDriverAnalytics s c gFail true driverId).map
        Prod.fst =
      (TripAnalyticsService.getDriverAnalytics s c gFail false driverId).map Prod.fst) ∧
    (∀ gFail sFail e,
      TripAnalyticsService.getDriverAnalytics s c gFail sFail driverId = .error e →
      TripAnalyticsService.computeDriverAnalytics s driverId = .error e) := by
  refine ⟨?_, ?_, ?_⟩
  · intro sFail
    rw [TripAnalyticsService.getDriverAnalytics]
    have hg : redisGet c true driverId = none := rfl
    rw [hg]
    cases hcomp : TripAnalyticsService.computeDriverAnalytics s driverId with
    | error e => simp [Except.map]
    | ok a => simp [Except.map]
  · intro gFail
    rw [TripAnalyticsService.getDriverAnalytics, TripAnalyticsService.getDriverAnalytics]
    cases hg : redisGet c gFail driverId with
    | some v => simp [Except.map]
    | none =>
      cases hcomp : TripAnalyticsService.computeDriverAnalytics s driverId with
      | error e => simp [Except.map]
      | ok a => simp [Except.map]
  · intro gFail sFail e h
    rw [TripAnalyticsService.getDriverAnalytics] at h
    cases hg : redisGet c gFail driverId with
    | some v =>
      rw [hg] at h
      exact absurd h (by simp)
    | none =>
      rw [hg] at h
      cases hcomp : TripAnalyticsService.computeDriverAnalytics s driverId with
      | error e' =>
        rw [hcomp] at h
        have h' : (Except.error e' : Except AggError (DriverAnalytics TripDetail × Cache)) =
            .error e := h
        injection h' with h''
        rw [h'']
      | ok a =>
        rw [hcomp] at h
        exact absurd h (by simp)

/-- Closed instance of `c9_cache_failures_not_surfaced`: with both cache
operations failing, the cached call for an unknown driver still reports the
computation's `NotFound`, not a cache error. -/
theorem c9_cache_failures_not_surfaced_witness :
    TripAnalyticsService.computeDriverAnalytics sampleStore 999999 = .error .notFound :=
  (c9_cache_failures_not_surfaced sampleStore [] 999999).2.2 true true .notFound (by decide)

/-- C8 counterexample: the input "0" is not a positive integer, yet it
passes the `IsNumberString` validation, reaches the data store, and fails
with `NotFound` — not `InvalidArgument`. -/
theorem c8_counterexample :
    isNumberString "0" = true ∧
    ¬(0 < parseNumber "0") ∧
    TripAnalyticsController.getDriverAnalytics "0" sampleStore [] false false =
      .error .notFound := by
  refine ⟨by decide, by decide, by decide⟩

/-- C8 (amended): an input rejected by the numeric-string validation (e.g.
"abc") fails with `InvalidArgument` before any data-store access — the
outcome is the same for every store and cache state; but numeric inputs
that do not denote a positive integer (e.g. "0") pass validation and reach
the data store, failing with `NotFound` instead. -/
theorem c8_validation_rule (input : String) (h : isNumberString input = false) :
    ∀ (s : Store) (c : Cache) (gFail sFail : Bool),
      TripAnalyticsController.getDriverAnalytics input s c gFail sFail =
        .error .invalidArgument := by
  intro s c gFail sFail
  rw [TripAnalyticsController.getDriverAnalytics, if_neg (by simp [h])]

/-- Closed instance of `c8_validation_rule` at the input "abc". -/
theorem c8_validation_rule_witness :
    isNumberString "abc" = false ∧
    TripAnalyticsController.getDriverAnalytics "abc" sampleStore [] false false =
      .error .invalidArgument :=
  ⟨by decide, c8_validation_rule "abc" (by decide) sampleStore [] false false⟩

set_option maxRecDepth 100000 in
/-- C10: in the Prisma paths the trips list and the recomputed
average_rating cover only the 50 most recent trips while total_trips and
total_earnings aggregate over all trips; on `manyTripsStore` (51 trips,
the oldest rated 1, the rest rated 5) total_trips = 51 exceeds the
50-element trips list and average_rating = 5 is not the mean 251/51 over
all rated trips. -/
theorem c10_recent_trips_cap (s : Store) (driverId : Int) (d : Driver)
    (hwf : s.wf = true) (hfind : findDriver s driverId = some d) :
    ((TripAnalyticsService.computeDriverAnalytics s driverId).map
        (fun a => (a.total_trips, a.total_earnings, a.average_rating, a.trips.length)) =
      .ok ((tripsOf s driverId).length, claimedTotalEarnings s driverId,
        round2 (specMeanRating s (TripAnalyticsService.recentTrips s driverId)),
        min 50 (tripsOf s driverId).length)) ∧
    ((TripAnalyticsService.getDriverAnalyticsUnoptimized s driverId).map
        (fun a => (a.total_trips, a.total_earnings, a.average_rating, a.trips.length)) =
      .ok ((tripsOf s driverId).length, claimedTotalEarnings s driverId,
        round2 (specMeanRating s (TripAnalyticsService.recentTrips s driverId)),
        min 50 (tripsOf s driverId).length)) ∧
    ((TripAnalyticsService.computeDriverAnalytics manyTripsStore 1).map
        (fun a => (a.total_trips, a.trips.length)) = .ok (51, 50)) ∧
    ((TripAnalyticsService.computeDriverAnalytics manyTripsStore 1).map
        (fun a => a.average_rating) = .ok 5) ∧
    claimedAverageRating manyTripsStore 1 = mkRat 251 51 ∧
    (5 : ℚ) ≠ mkRat 251 51 := by
  refine ⟨tas_compute_proj s driverId d hwf hfind, tas_unopt_proj s driverId d hwf hfind,
    by decide, by decide, by decide, by decide⟩

set_option maxRecDepth 100000 in
/-- Closed instance of `c10_recent_trips_cap` at `manyTripsStore`. -/
theorem c10_recent_trips_cap_witness :
    (TripAnalyticsService.computeDriverAnalytics manyTripsStore 1).map
        (fun a => (a.total_trips, a.total_earnings, a.average_rating, a.trips.length)) =
      .ok ((tripsOf manyTripsStore 1).length, claimedTotalEarnings manyTripsStore 1,
        round2 (specMeanRating manyTripsStore
          (TripAnalyticsService.recentTrips manyTripsStore 1)),
        min 50 (tripsOf manyTripsStore 1).length) :=
  (c10_recent_trips_cap manyTripsStore 1 ⟨1, "J", "p", 0⟩ (by decide) (by decide)).1
